import Mathlib

/-!
Shallow embedding of the fail2ban web dashboard backend
(`fail2ban_web/app.py`) together with proofs about its behaviour.

String processing is modelled at the character-list level so that every
definition is executable and kernel-reducible: `pyStrip` models Python's
`str.strip()`, `splitChar` models `str.split(sep)` for a one-character
separator (keeping empty chunks, as Python does), `pySplitWS` models the
argumentless `str.split()` (dropping empty chunks), and `occursIn` models
the Python substring test `pat in s`.

Effectful parts are made explicit: the subprocess call in
`run_f2b_command` is modelled by an `ExecOutcome` oracle (completion with
captured stdout and exit code, missing executable, or timeout); a Python
exception escaping a function is modelled by `Option` (`none` = raised);
the sqlite `ban_log` table is a list of `LogEntry` threaded through the
handlers; the `random` module is an entropy stream `RandSrc` consumed one
draw at a time.
-/

namespace Fail2banWeb

/-! ### Character-level models of the Python string operations used -/

/-- Model of Python `str.strip()` on a character list. -/
def trimChars (cs : List Char) : List Char :=
  ((cs.dropWhile Char.isWhitespace).reverse.dropWhile Char.isWhitespace).reverse

/-- Model of Python `str.strip()` on a `String`. -/
def pyStrip (s : String) : String :=
  String.mk (trimChars s.data)

/-- Model of Python `s.split(sep)` for a single-character separator:
splits on every occurrence and keeps empty chunks. -/
def splitChar (sep : Char) : List Char → List (List Char)
  | [] => [[]]
  | c :: cs =>
    match splitChar sep cs with
    | [] => [[]]
    | h :: t => if c = sep then [] :: h :: t else (c :: h) :: t

/-- Splitting on a character predicate, keeping empty chunks. -/
def splitIf (p : Char → Bool) : List Char → List (List Char)
  | [] => [[]]
  | c :: cs =>
    match splitIf p cs with
    | [] => [[]]
    | h :: t => if p c then [] :: h :: t else (c :: h) :: t

/-- Model of Python `s.split()` with no argument: split on whitespace
runs and drop empty chunks. -/
def pySplitWS (cs : List Char) : List (List Char) :=
  (splitIf Char.isWhitespace cs).filter (fun l => l ≠ [])

/-- `leadsWith pat s` is true when `pat` is an initial segment of `s`. -/
def leadsWith : List Char → List Char → Bool
  | [], _ => true
  | _ :: _, [] => false
  | p :: ps, c :: cs => (p = c) && leadsWith ps cs

/-- Model of the Python substring test `pat in s`. -/
def occursIn (pat : List Char) : List Char → Bool
  | [] => leadsWith pat []
  | c :: cs => leadsWith pat (c :: cs) || occursIn pat cs

/-- `hasSubstr s pat` is the Python expression `pat in s` on strings. -/
def hasSubstr (s pat : String) : Bool :=
  occursIn pat.data s.data

/-- Numeric value of a run of decimal digit characters (Python `int`). -/
def digitsToNat (cs : List Char) : Nat :=
  cs.foldl (fun n c => n * 10 + (c.toNat - 48)) 0

/-- First maximal run of decimal digits in a character list, if any:
the match of the regular expression `\d+` under `re.search`. -/
def firstRun : List Char → Option (List Char)
  | [] => none
  | c :: rest =>
    if c.isDigit then some (c :: rest.takeWhile Char.isDigit) else firstRun rest

/-- `int(re.search(r"\d+", s).group())`, with `none` when `re.search`
returns `None` (so that `.group()` would raise). -/
def extractNum (cs : List Char) : Option Nat :=
  (firstRun cs).map digitsToNat

/-- Python `line.split(":")[-1]`: the segment after the final colon
(the whole line when it has no colon). -/
def lastColonSeg (cs : List Char) : List Char :=
  (splitChar ':' cs).getLastD []

/-! ### Command Channel (`run_f2b_command`) -/

/-- Outcome of one `subprocess.run` invocation: normal completion with
captured standard output and the process exit code, `FileNotFoundError`,
or `subprocess.TimeoutExpired` (the 10-second limit elapsed). -/
inductive ExecOutcome where
  | completed (stdout : String) (returncode : Int)
  | notFound
  | timedOut
deriving DecidableEq

/-- An oracle giving the outcome of executing a given argument vector
through the configured transport. -/
abbrev Exec := List String → ExecOutcome

/-- `run_f2b_command`: returns `(result.stdout.strip(), result.returncode)`
on completion, `("", -1)` on `FileNotFoundError`, and `("timeout", -2)`
on `subprocess.TimeoutExpired`. -/
def run_f2b_command (o : ExecOutcome) : String × Int :=
  match o with
  | .completed stdout rc => (pyStrip stdout, rc)
  | .notFound => ("", -1)
  | .timedOut => ("timeout", -2)

/-- `is_f2b_available`: probe `fail2ban-client status` and test for exit
code exactly 0. -/
def is_f2b_available (exec : Exec) : Bool :=
  (run_f2b_command (exec ["status"])).2 == 0

/-! ### Status Parser (`parse_jail_status`, `get_all_jails`) -/

/-- The structured record built by `parse_jail_status`. -/
structure JailStatus where
  name : String
  currently_failed : Nat
  total_failed : Nat
  currently_banned : Nat
  total_banned : Nat
  banned_ips : List String
deriving DecidableEq

/-- The label substrings scanned for, as character lists. -/
def cfLabel : List Char := "Currently failed:".data

def tfLabel : List Char := "Total failed:".data

def cbLabel : List Char := "Currently banned:".data

def tbLabel : List Char := "Total banned:".data

def ipLabel : List Char := "Banned IP list:".data

def jlLabel : List Char := "Jail list:".data

/-- The initial `result` dictionary of `parse_jail_status`: all counts 0
and an empty banned-address list. -/
def initStatus (name : String) : JailStatus :=
  ⟨name, 0, 0, 0, 0, []⟩

/-- One iteration of the line loop of `parse_jail_status`.  The line is
stripped, then matched against the label substrings in source order; for
a numeric label the first digit run after the final colon is extracted
(`none` models the `AttributeError` raised when `re.search` finds no
digits); for the banned-IP label the remainder is whitespace-split.
Lines matching no label leave the record unchanged. -/
def parseLine (r : JailStatus) (line0 : List Char) : Option JailStatus :=
  if occursIn cfLabel (trimChars line0) then
    match extractNum (lastColonSeg (trimChars line0)) with
    | none => none
    | some n => some { r with currently_failed := n }
  else if occursIn tfLabel (trimChars line0) then
    match extractNum (lastColonSeg (trimChars line0)) with
    | none => none
    | some n => some { r with total_failed := n }
  else if occursIn cbLabel (trimChars line0) then
    match extractNum (lastColonSeg (trimChars line0)) with
    | none => none
    | some n => some { r with currently_banned := n }
  else if occursIn tbLabel (trimChars line0) then
    match extractNum (lastColonSeg (trimChars line0)) with
    | none => none
    | some n => some { r with total_banned := n }
  else if occursIn ipLabel (trimChars line0) then
    if trimChars (lastColonSeg (trimChars line0)) ≠ [] then
      some { r with banned_ips :=
        (((pySplitWS (trimChars (lastColonSeg (trimChars line0)))).map
            trimChars).filter (fun l => l ≠ [])).map (fun l => String.mk l) }
    else some r
  else some r

/-- The line loop of `parse_jail_status`; `none` models an exception
escaping the loop. -/
def foldParse (r : JailStatus) : List (List Char) → Option JailStatus
  | [] => some r
  | l :: ls =>
    match parseLine r l with
    | none => none
    | some r' => foldParse r' ls

/-- The parsing part of `parse_jail_status`, applied to the text
returned by the Command Channel. -/
def parseStatusText (name : String) (output : String) : Option JailStatus :=
  foldParse (initStatus name) (splitChar '\n' output.data)

/-- Result of `parse_jail_status`: either the error dictionary produced
when the status command fails, or the parsed record. -/
inductive ParseJailResult where
  | error (msg : String)
  | ok (r : JailStatus)
deriving DecidableEq

/-- `parse_jail_status`: run `fail2ban-client status <jail>`, return the
error dictionary on a non-zero exit code, otherwise parse the output
line by line (`none` = an exception was raised while parsing). -/
def parse_jail_status (exec : Exec) (jail_name : String) :
    Option ParseJailResult :=
  if (run_f2b_command (exec ["status", jail_name])).2 ≠ 0 then
    some (.error ("Failed to get status for " ++ jail_name))
  else
    match parseStatusText jail_name
        (run_f2b_command (exec ["status", jail_name])).1 with
    | none => none
    | some r => some (.ok r)

/-- Scan of the `status` output for the `Jail list:` line (the line is
not stripped before the substring test, matching the source); the first
matching line is comma-split, trimmed and filtered. -/
def findJails : List (List Char) → List String
  | [] => []
  | line :: rest =>
    if occursIn jlLabel line then
      (((splitChar ',' (trimChars (lastColonSeg line))).map
          trimChars).filter (fun l => l ≠ [])).map (fun l => String.mk l)
    else findJails rest

/-- `get_all_jails`: empty list on a non-zero exit code, otherwise the
parsed `Jail list:` line (empty when no line matches). -/
def get_all_jails (exec : Exec) : List String :=
  if (run_f2b_command (exec ["status"])).2 ≠ 0 then []
  else findJails (splitChar '\n' (run_f2b_command (exec ["status"])).1.data)

/-! ### Mode Selector (the `startup` handler) -/

/-- The mode decision made once in the `startup` handler: an explicit
`"true"` configuration forces demo (synthetic) mode, an explicit
`"false"` forces live mode, and anything else (the `auto` default)
probes the Command Channel and is live exactly when the probe's exit
code is 0.  The source writes the module-level `_demo_mode` flag only
here, so the resolved value is fixed for the process lifetime. -/
def resolve_demo_mode (demoCfg : String) (exec : Exec) : Bool :=
  if demoCfg = "true" then true
  else if demoCfg = "false" then false
  else !(is_f2b_available exec)

/-! ### Synthetic Data Generator (`get_demo_data`) -/

/-- The entropy stream behind the `random` module: draw `i` of the
process's pseudo-random source.  `random.randint(lo, hi)` is modelled as
`lo + g i % (hi + 1 - lo)`, consuming one draw. -/
abbrev RandSrc := Nat → Nat

/-- `random.randint(lo, hi)` (both bounds inclusive), returning the
value and the next draw index. -/
def randint (g : RandSrc) (lo hi : Nat) (i : Nat) : Nat × Nat :=
  (lo + g i % (hi + 1 - lo), i + 1)

/-- One synthetic IPv4 address: four `randint` draws joined by dots,
first octet restricted to 1–223, last to 1–254. -/
def randIp (g : RandSrc) (i : Nat) : String × Nat :=
  let a := randint g 1 223 i
  let b := randint g 0 255 a.2
  let c := randint g 0 255 b.2
  let d := randint g 1 254 c.2
  (toString a.1 ++ "." ++ toString b.1 ++ "." ++ toString c.1 ++ "." ++
    toString d.1, d.2)

/-- The banned-address loop: `n` synthetic addresses. -/
def genIps (g : RandSrc) : Nat → Nat → List String × Nat
  | 0, i => ([], i)
  | n + 1, i =>
    let p := randIp g i
    let q := genIps g n p.2
    (p.1 :: q.1, q.2)

/-- The nested `filter` sub-record of a synthetic jail. -/
structure FilterStats where
  currently_failed : Nat
  total_failed : Nat
deriving DecidableEq

/-- One synthetic per-jail record. -/
structure DemoJail where
  currently_banned : Nat
  total_banned : Nat
  total_failed : Nat
  banned_ips : List String
  filter : FilterStats
deriving DecidableEq

/-- One synthetic jail: a 0–8 draw of banned addresses, then the
offset, failure counters and the redundant nested filter record, in the
source's draw order. -/
def genJail (g : RandSrc) (i : Nat) : DemoJail × Nat :=
  let n := randint g 0 8 i
  let ips := genIps g n.1 n.2
  let off := randint g 5 50 ips.2
  let tf := randint g 100 5000 off.2
  let cf2 := randint g 0 10 tf.2
  let tf2 := randint g 100 5000 cf2.2
  (⟨ips.1.length, ips.1.length + off.1, tf.1, ips.1, ⟨cf2.1, tf2.1⟩⟩, tf2.2)

/-- The per-jail loop of `get_demo_data`, keyed in catalog order. -/
def genJails (g : RandSrc) : List String → Nat → List (String × DemoJail) × Nat
  | [], i => ([], i)
  | name :: rest, i =>
    let p := genJail g i
    let q := genJails g rest p.2
    ((name, p.1) :: q.1, q.2)

/-- One sparse timeline bucket. -/
structure TimelineEntry where
  hour : String
  jail : String
  count : Nat
deriving DecidableEq

/-- Inner timeline loop over jails for one hour bucket: the designated
high-traffic jail draws 0–15, every other jail 0–5; zero counts are
omitted. -/
def genTimelineHour (g : RandSrc) (hour : String) :
    List String → Nat → List TimelineEntry × Nat
  | [], i => ([], i)
  | j :: js, i =>
    let p := if j = "sshd" then randint g 0 15 i else randint g 0 5 i
    let q := genTimelineHour g hour js p.2
    (if p.1 > 0 then ⟨hour, j, p.1⟩ :: q.1 else q.1, q.2)

/-- Outer timeline loop over the 24 hour buckets; `hourLabel h` stands
for `(now - timedelta(hours=23 - h)).strftime("%H:00")`. -/
def genTimelineHours (g : RandSrc) (hourLabel : Nat → String)
    (names : List String) : List Nat → Nat → List TimelineEntry × Nat
  | [], i => ([], i)
  | h :: hs, i =>
    let p := genTimelineHour g (hourLabel h) names i
    let q := genTimelineHours g hourLabel names hs p.2
    (p.1 ++ q.1, q.2)

/-- One synthetic top-offender entry. -/
structure TopIp where
  ip : String
  ban_count : Nat
  country : String
  last_seen : String
  jails : List String
deriving DecidableEq

/-- The fixed country-code catalog. -/
def demoCountries : List String :=
  ["CN", "RU", "US", "BR", "IN", "KR", "DE", "FR", "VN", "ID"]

/-- The fixed catalog of six representative jail names. -/
def demoJailNames : List String :=
  ["sshd", "nginx-http-auth", "postfix", "dovecot", "apache-auth", "recidive"]

/-- `random.choice(l)`: a uniform index draw into `l`. -/
def choice (g : RandSrc) (l : List String) (i : Nat) : String × Nat :=
  let p := randint g 0 (l.length - 1) i
  (l.getD p.1 "", p.2)

/-- `random.sample(l, k)`: `k` distinct uniform picks, removing each
picked element before the next draw. -/
def sample (g : RandSrc) (l : List String) : Nat → Nat → List String × Nat
  | 0, i => ([], i)
  | k + 1, i =>
    let p := randint g 0 (l.length - 1) i
    let q := sample g (l.eraseIdx p.1) k p.2
    (l.getD p.1 "" :: q.1, q.2)

/-- One synthetic top-offender entry, draws in the source's evaluation
order; `minutesAgoIso m` stands for
`(now - timedelta(minutes=m)).isoformat()`. -/
def genTopIp (g : RandSrc) (minutesAgoIso : Nat → String)
    (names : List String) (i : Nat) : TopIp × Nat :=
  let ip := randIp g i
  let bc := randint g 3 25 ip.2
  let country := choice g demoCountries bc.2
  let mins := randint g 1 1440 country.2
  let k := randint g 1 3 mins.2
  let js := sample g names k.1 k.2
  (⟨ip.1, bc.1, country.1, minutesAgoIso mins.1, js.1⟩, js.2)

/-- The top-offender loop: `n` entries. -/
def genTopIps (g : RandSrc) (minutesAgoIso : Nat → String)
    (names : List String) : Nat → Nat → List TopIp × Nat
  | 0, i => ([], i)
  | n + 1, i =>
    let p := genTopIp g minutesAgoIso names i
    let q := genTopIps g minutesAgoIso names n p.2
    (p.1 :: q.1, q.2)

/-- Descending ban-count order for the top-offender sort
(`sort(key=lambda x: x["ban_count"], reverse=True)`). -/
def topIpGE (a b : TopIp) : Prop :=
  b.ban_count ≤ a.ban_count

instance : DecidableRel topIpGE := fun a b => Nat.decLe b.ban_count a.ban_count

instance : IsTotal TopIp topIpGE :=
  ⟨fun a b => Nat.le_total b.ban_count a.ban_count⟩

instance : IsTrans TopIp topIpGE :=
  ⟨fun _ _ _ hab hbc => Nat.le_trans hbc hab⟩

/-- The full synthetic dataset returned by `get_demo_data`. -/
structure DemoData where
  jails : List (String × DemoJail)
  timeline : List TimelineEntry
  top_ips : List TopIp
  total_banned_now : Nat
  total_jails : Nat
deriving DecidableEq

/-- `get_demo_data`: per-jail records over the fixed catalog, the
sparse 24-hour timeline, ten top offenders sorted descending by ban
count, and the aggregate fields.  Note the returned dictionary has no
`demo` key. -/
def get_demo_data (g : RandSrc) (hourLabel minutesAgoIso : Nat → String) :
    DemoData :=
  let p₁ := genJails g demoJailNames 0
  let p₂ := genTimelineHours g hourLabel demoJailNames (List.range 24) p₁.2
  let p₃ := genTopIps g minutesAgoIso demoJailNames 10 p₂.2
  { jails := p₁.1
    timeline := p₂.1
    top_ips := List.insertionSort topIpGE p₃.1
    total_banned_now := (p₁.1.map (fun x => x.2.currently_banned)).sum
    total_jails := demoJailNames.length }

/-! ### Action Log Store (the sqlite `ban_log` table) -/

/-- One row of the `ban_log` table (the always-NULL `country` and
`hostname` columns are elided). -/
structure LogEntry where
  id : Nat
  timestamp : String
  jail : String
  ip : String
  action : String
deriving DecidableEq

/-- The id assigned by `INTEGER PRIMARY KEY AUTOINCREMENT` to the next
inserted row: one more than the largest id ever used. -/
def nextId (log : List LogEntry) : Nat :=
  (log.map LogEntry.id).foldr max 0 + 1

/-- Descending id order (`ORDER BY id DESC`), newest first. -/
def idGE (a b : LogEntry) : Prop :=
  b.id ≤ a.id

instance : DecidableRel idGE := fun a b => Nat.decLe b.id a.id

instance : IsTotal LogEntry idGE := ⟨fun a b => Nat.le_total b.id a.id⟩

instance : IsTrans LogEntry idGE := ⟨fun _ _ _ hab hbc => Nat.le_trans hbc hab⟩

/-- `get_ban_log`: the `limit` query parameter is validated against
`ge=1, le=1000` (an out-of-range value is rejected before the handler
runs), then `SELECT * FROM ban_log ORDER BY id DESC LIMIT ?`. -/
def get_ban_log (limit : Int) (log : List LogEntry) :
    Except Unit (List LogEntry) :=
  if 1 ≤ limit ∧ limit ≤ 1000 then
    .ok ((List.insertionSort idGE log).take limit.toNat)
  else .error ()

/-! ### Ban / unban handlers (`ban_ip`, `unban_ip`) -/

/-- Observable result of one ban/unban request: the argument vectors
sent through the Command Channel, the `ban_log` table afterwards, and
the HTTP response (`Except.error` = an `HTTPException` whose detail is
the given string). -/
structure BanResult where
  issued : List (List String)
  log : List LogEntry
  response : Except String String

/-- `ban_ip`: in demo mode an immediate success touching nothing; in
live mode issue `set <jail> banip <ip>`, raise a 500 carrying the raw
output on a non-zero exit code, and only on exit code 0 insert a `ban`
row; `ts` stands for `datetime.now(timezone.utc).isoformat()`. -/
def ban_ip (demo : Bool) (exec : Exec) (ts jail ip : String)
    (log : List LogEntry) : BanResult :=
  if demo then
    ⟨[], log, .ok ("[DEMO] Would ban " ++ ip ++ " in " ++ jail)⟩
  else
    if (run_f2b_command (exec ["set", jail, "banip", ip])).2 ≠ 0 then
      ⟨[["set", jail, "banip", ip]], log,
        .error ("Failed to ban " ++ ip ++ ": " ++
          (run_f2b_command (exec ["set", jail, "banip", ip])).1)⟩
    else
      ⟨[["set", jail, "banip", ip]],
        log ++ [⟨nextId log, ts, jail, ip, "ban"⟩],
        .ok ("Banned " ++ ip ++ " in " ++ jail)⟩

/-- `unban_ip`: the mirror image of `ban_ip` with `unbanip` and an
`unban` row. -/
def unban_ip (demo : Bool) (exec : Exec) (ts jail ip : String)
    (log : List LogEntry) : BanResult :=
  if demo then
    ⟨[], log, .ok ("[DEMO] Would unban " ++ ip ++ " from " ++ jail)⟩
  else
    if (run_f2b_command (exec ["set", jail, "unbanip", ip])).2 ≠ 0 then
      ⟨[["set", jail, "unbanip", ip]], log,
        .error ("Failed to unban " ++ ip ++ ": " ++
          (run_f2b_command (exec ["set", jail, "unbanip", ip])).1)⟩
    else
      ⟨[["set", jail, "unbanip", ip]],
        log ++ [⟨nextId log, ts, jail, ip, "unban"⟩],
        .ok ("Unbanned " ++ ip ++ " from " ++ jail)⟩

/-! ### Status Aggregator (`get_status`, `get_mode`) -/

/-- `status.get("currently_banned", 0)`: an error dictionary has no
such key, so it contributes 0. -/
def pjrBanned : ParseJailResult → Nat
  | .ok r => r.currently_banned
  | .error _ => 0

/-- The dictionary returned by the live branch of `get_status`; only
this branch carries a `demo` key. -/
structure LiveStatus where
  jails : List (String × ParseJailResult)
  total_banned_now : Nat
  total_jails : Nat
  demo : Bool
deriving DecidableEq

/-- A `/api/status` response body: either the raw synthetic dataset or
the live aggregate. -/
inductive StatusResponse where
  | demoData (d : DemoData)
  | live (s : LiveStatus)
deriving DecidableEq

/-- The value of the `demo` key of a status response, `none` when the
response carries no such key. -/
def demoTag : StatusResponse → Option Bool
  | .demoData _ => none
  | .live s => some s.demo

/-- The per-jail loop of the live branch of `get_status`; `none` models
an exception raised by `parse_jail_status` aborting the request. -/
def statusEntries (exec : Exec) :
    List String → Option (List (String × ParseJailResult))
  | [] => some []
  | j :: rest =>
    match parse_jail_status exec j with
    | none => none
    | some r =>
      match statusEntries exec rest with
      | none => none
      | some tl => some ((j, r) :: tl)

/-- `get_status`: in demo mode the raw synthetic dataset; in live mode
the jail list is queried, each jail parsed, currently-banned counts
summed, and the result tagged `demo = False`. -/
def get_status (demo : Bool) (g : RandSrc) (hourLabel minutesAgoIso : Nat → String)
    (exec : Exec) : Option StatusResponse :=
  if demo then some (.demoData (get_demo_data g hourLabel minutesAgoIso))
  else
    match statusEntries exec (get_all_jails exec) with
    | none => none
    | some jd =>
      some (.live ⟨jd, (jd.map (fun p => pjrBanned p.2)).sum,
        (get_all_jails exec).length, false⟩)

/-- The `/api/mode` response body. -/
structure ModeResponse where
  demo : Bool
deriving DecidableEq

/-- `get_mode`: reports the resolved mode flag. -/
def get_mode (demo : Bool) : ModeResponse :=
  ⟨demo⟩

/-! ### Predicates and concrete inputs used by the statements below -/

/-- A line on which the line loop of `parse_jail_status` cannot raise:
whichever numeric label it first matches (in the source's test order)
must have a digit run after its final colon; lines matching no numeric
label are always safe. -/
def lineOk (line0 : List Char) : Bool :=
  if occursIn cfLabel (trimChars line0) then
    (extractNum (lastColonSeg (trimChars line0))).isSome
  else if occursIn tfLabel (trimChars line0) then
    (extractNum (lastColonSeg (trimChars line0))).isSome
  else if occursIn cbLabel (trimChars line0) then
    (extractNum (lastColonSeg (trimChars line0))).isSome
  else if occursIn tbLabel (trimChars line0) then
    (extractNum (lastColonSeg (trimChars line0))).isSome
  else true

/-- A representative `fail2ban-client status sshd` output containing
the two lines of the C6 example; the reported count (3) deliberately
disagrees with the length of the address list (2). -/
def c6text : String :=
  "Status for the jail: sshd\nCurrently banned: 3\nBanned IP list: 1.2.3.4 5.6.7.8"

/-- A status text whose `Currently failed:` line has no digits after
the final colon. -/
def badCountText : String :=
  "Currently failed: none"

/-- A status text with one recognizable line and one unrecognizable
line. -/
def partialText : String :=
  "|- Currently banned: 2\nmystery line"

/-- A concrete pre-existing action log. -/
def sampleLog : List LogEntry :=
  [⟨1, "2026-01-01T00:00:00+00:00", "sshd", "9.9.9.9", "ban"⟩,
   ⟨2, "2026-01-01T00:05:00+00:00", "sshd", "9.9.9.9", "unban"⟩,
   ⟨3, "2026-01-01T00:10:00+00:00", "postfix", "8.8.8.8", "ban"⟩]

/-- A transport on which every command completes successfully with
empty output. -/
def execOk : Exec := fun _ => .completed "" 0

/-- A transport on which every command completes with exit code 1. -/
def execFail : Exec := fun _ => .completed "" 1

/-- A degenerate entropy stream. -/
def zeroRand : RandSrc := fun _ => 0

/-- A degenerate timestamp renderer. -/
def noLabel : Nat → String := fun _ => ""

/-! ## Theorems -/

/-- C3: the startup mode decision — an explicit `"true"` configuration
selects synthetic mode, an explicit `"false"` selects live mode, and
under `"auto"` the mode is live (demo flag false) exactly when the
startup probe of the Command Channel returns status code 0.  The
decision is a pure function of the startup inputs; the source writes
the module flag `_demo_mode` nowhere outside the startup handler. -/
theorem c3_mode_selection (exec : Exec) :
    resolve_demo_mode "true" exec = true ∧
    resolve_demo_mode "false" exec = false ∧
    (resolve_demo_mode "auto" exec = false ↔
      (run_f2b_command (exec ["status"])).2 = 0) := by
  refine ⟨rfl, rfl, ?_⟩
  show (if ("auto" : String) = "true" then true
    else if ("auto" : String) = "false" then false
    else !(is_f2b_available exec)) = false ↔ _
  rw [if_neg (by decide), if_neg (by decide)]
  simp [is_f2b_available]

/-- C4: `run_f2b_command` returns the trimmed standard output together
with the command's own exit code on completion, `("", -1)` when the
executable is not found, and on timeout the fixed non-empty sentinel
output `"timeout"` with status code `-2`; as a total function of the
invocation outcome it propagates no failure in any of these cases. -/
theorem c4_run_f2b_command :
    (∀ out rc, run_f2b_command (ExecOutcome.completed out rc) =
      (pyStrip out, rc)) ∧
    run_f2b_command ExecOutcome.notFound = ("", -1) ∧
    run_f2b_command ExecOutcome.timedOut = ("timeout", -2) ∧
    ("timeout" : String) ≠ "" :=
  ⟨fun _ _ => rfl, rfl, rfl, by decide⟩

/-- C5: in live mode, `ban_ip` and `unban_ip` append their Action Log
entry exactly when the issued command's status code is 0; on a non-zero
code the log is unchanged and the handler raises an error whose detail
carries the raw command output. -/
theorem c5_live_logging (exec : Exec) (ts jail ip : String)
    (log : List LogEntry) :
    (ban_ip false exec ts jail ip log).log =
      (if (run_f2b_command (exec ["set", jail, "banip", ip])).2 = 0 then
        log ++ [⟨nextId log, ts, jail, ip, "ban"⟩]
      else log) ∧
    (ban_ip false exec ts jail ip log).response =
      (if (run_f2b_command (exec ["set", jail, "banip", ip])).2 = 0 then
        .ok ("Banned " ++ ip ++ " in " ++ jail)
      else
        .error ("Failed to ban " ++ ip ++ ": " ++
          (run_f2b_command (exec ["set", jail, "banip", ip])).1)) ∧
    (unban_ip false exec ts jail ip log).log =
      (if (run_f2b_command (exec ["set", jail, "unbanip", ip])).2 = 0 then
        log ++ [⟨nextId log, ts, jail, ip, "unban"⟩]
      else log) ∧
    (unban_ip false exec ts jail ip log).response =
      (if (run_f2b_command (exec ["set", jail, "unbanip", ip])).2 = 0 then
        .ok ("Unbanned " ++ ip ++ " from " ++ jail)
      else
        .error ("Failed to unban " ++ ip ++ ": " ++
          (run_f2b_command (exec ["set", jail, "unbanip", ip])).1)) := by
  by_cases hb : (run_f2b_command (exec ["set", jail, "banip", ip])).2 = 0 <;>
    by_cases hu : (run_f2b_command (exec ["set", jail, "unbanip", ip])).2 = 0 <;>
    refine ⟨?_, ?_, ?_, ?_⟩ <;>
    simp [ban_ip, unban_ip, hb, hu]

/-- C6: on a status text containing the lines `Currently banned: 3` and
`Banned IP list: 1.2.3.4 5.6.7.8`, `parse_jail_status` yields
`currently_banned = 3` and `banned_ips = ["1.2.3.4", "5.6.7.8"]`, even
though the reported count (3) and the list length (2) disagree — the two
are not cross-validated. -/
theorem c6_parse_example :
    parse_jail_status (fun _ => ExecOutcome.completed c6text 0) "sshd" =
      some (.ok ⟨"sshd", 0, 0, 3, 0, ["1.2.3.4", "5.6.7.8"]⟩) ∧
    (3 : Nat) ≠ (["1.2.3.4", "5.6.7.8"] : List String).length :=
  ⟨by decide, by decide⟩

/-- C10: in synthetic (demo) mode, `ban_ip` and `unban_ip` report
success for every jail and address while issuing no Command Channel
command and leaving the Action Log — the only durable state — exactly
as it was. -/
theorem c10_demo_noop (exec : Exec) (ts jail ip : String)
    (log : List LogEntry) :
    ban_ip true exec ts jail ip log =
      ⟨[], log, .ok ("[DEMO] Would ban " ++ ip ++ " in " ++ jail)⟩ ∧
    unban_ip true exec ts jail ip log =
      ⟨[], log, .ok ("[DEMO] Would unban " ++ ip ++ " from " ++ jail)⟩ :=
  ⟨rfl, rfl⟩

/-- C1, counterexample: with status code 0, a `Currently failed:` line
with no digits after the final colon does not leave the field at its
default — `re.search` returns `None` and the `.group()` call raises, so
the parse produces no record at all (`none`). -/
theorem c1_counterexample :
    parse_jail_status (fun _ => ExecOutcome.completed badCountText 0) "sshd" =
      none := by
  decide

/-- C2, counterexample: in synthetic mode the overall-status response is
the raw generated dataset, which carries no `demo` key at all — it is
not tagged as synthetic. -/
theorem c2_counterexample :
    Option.map demoTag (get_status true zeroRand noLabel noLabel execFail) =
      some none :=
  rfl

/-- C2 (amended): every live overall-status response is tagged
`demo = false`, but a synthetic-mode overall-status response carries no
mode tag at all; the mode flag itself is reported only by the separate
mode endpoint. -/
theorem c2_mode_tagging (demo : Bool) (g : RandSrc)
    (hourLabel minutesAgoIso : Nat → String) (exec : Exec) :
    (∀ resp, get_status demo g hourLabel minutesAgoIso exec = some resp →
      demoTag resp = (if demo then none else some false)) ∧
    (get_mode demo).demo = demo := by
  refine ⟨?_, rfl⟩
  intro resp h
  cases demo with
  | true =>
    simp only [get_status, if_true, Option.some.injEq] at h
    rw [← h]
    rfl
  | false =>
    simp only [get_status, Bool.false_eq_true, if_false] at h
    cases he : statusEntries exec (get_all_jails exec) with
    | none => rw [he] at h; cases h
    | some jd =>
      rw [he] at h
      simp only [Option.some.injEq] at h
      rw [← h]
      rfl

/-- C2, witness for the amended theorem at a live configuration with an
unreachable backend (empty jail list). -/
theorem c2_mode_tagging_witness :
    demoTag (.live ⟨[], 0, 0, false⟩) = (if false then none else some false) ∧
    (get_mode false).demo = false :=
  ⟨(c2_mode_tagging false zeroRand noLabel noLabel execFail).1
      (.live ⟨[], 0, 0, false⟩) rfl,
    (c2_mode_tagging false zeroRand noLabel noLabel execFail).2⟩

/-- The per-jail generation loop produces one record per catalog name. -/
theorem genJails_length (g : RandSrc) :
    ∀ (names : List String) (i : Nat),
      (genJails g names i).1.length = names.length := by
  intro names
  induction names with
  | nil => intro i; rfl
  | cons n rest ih => intro i; simp [genJails, ih]

/-- The top-offender loop produces exactly the requested number of
entries. -/
theorem genTopIps_length (g : RandSrc) (minutesAgoIso : Nat → String)
    (names : List String) :
    ∀ (n i : Nat), (genTopIps g minutesAgoIso names n i).1.length = n := by
  intro n
  induction n with
  | zero => intro i; rfl
  | succ k ih => intro i; simp [genTopIps, ih]

/-- C7: for every run of the pseudo-random source the synthetic dataset
has exactly 6 jail records and exactly 10 top-offender entries, and the
top-offender list is sorted in descending ban-count order. -/
theorem c7_demo_shape (g : RandSrc) (hourLabel minutesAgoIso : Nat → String) :
    (get_demo_data g hourLabel minutesAgoIso).jails.length = 6 ∧
    (get_demo_data g hourLabel minutesAgoIso).top_ips.length = 10 ∧
    List.Sorted topIpGE (get_demo_data g hourLabel minutesAgoIso).top_ips := by
  refine ⟨?_, ?_, ?_⟩
  · simp only [get_demo_data]
    rw [genJails_length]
    rfl
  · simp only [get_demo_data]
    rw [List.length_insertionSort]
    exact genTopIps_length g minutesAgoIso demoJailNames 10 _
  · simp only [get_demo_data]
    exact List.sorted_insertionSort topIpGE _

/-- C8: the recent-actions query rejects every limit outside `[1, 1000]`
without executing, and for every accepted limit returns at most `limit`
entries in descending identifier (newest-first) order. -/
theorem c8_log_query (limit : Int) (log : List LogEntry) :
    ((1 ≤ limit ∧ limit ≤ 1000) →
      ∃ res, get_ban_log limit log = .ok res ∧
        res.length ≤ limit.toNat ∧ List.Sorted idGE res) ∧
    (¬(1 ≤ limit ∧ limit ≤ 1000) → get_ban_log limit log = .error ()) := by
  constructor
  · intro h
    refine ⟨(List.insertionSort idGE log).take limit.toNat, ?_, ?_, ?_⟩
    · rw [get_ban_log, if_pos h]
    · rw [List.length_take]
      exact min_le_left _ _
    · exact List.Pairwise.sublist (List.take_sublist _ _)
        (List.sorted_insertionSort idGE log)
  · intro h
    rw [get_ban_log, if_neg h]

/-- C8, witness: an in-range limit returns a bounded, descending result
and the out-of-range limit 0 is rejected. -/
theorem c8_log_query_witness :
    (∃ res, get_ban_log 2 sampleLog = .ok res ∧
      res.length ≤ (2 : Int).toNat ∧ List.Sorted idGE res) ∧
    get_ban_log 0 sampleLog = .error () :=
  ⟨(c8_log_query 2 sampleLog).1 (by decide),
    (c8_log_query 0 sampleLog).2 (by decide)⟩

/-- Every id in the log is bounded by the running maximum. -/
theorem id_le_foldr_max (log : List LogEntry) :
    ∀ e ∈ log, e.id ≤ (log.map LogEntry.id).foldr max 0 := by
  induction log with
  | nil => intro e he; cases he
  | cons x xs ih =>
    intro e he
    rcases List.mem_cons.mp he with rfl | hm
    · exact le_max_left _ _
    · exact le_trans (ih e hm) (le_max_right _ _)

/-- The autoincrement id is strictly larger than every existing id. -/
theorem id_lt_nextId (log : List LogEntry) :
    ∀ e ∈ log, e.id < nextId log :=
  fun e he => Nat.lt_succ_of_le (id_le_foldr_max log e he)

/-- Querying one entry right after appending a strictly-newest row
returns exactly that row. -/
theorem get_ban_log_one_append (log : List LogEntry) (e : LogEntry)
    (h : ∀ x ∈ log, x.id < e.id) :
    get_ban_log 1 (log ++ [e]) = .ok [e] := by
  rw [get_ban_log, if_pos (by decide)]
  have hperm := List.perm_insertionSort idGE (log ++ [e])
  have hsort := List.sorted_insertionSort idGE (log ++ [e])
  cases hs : List.insertionSort idGE (log ++ [e]) with
  | nil =>
    rw [hs] at hperm
    have hlen := hperm.length_eq
    simp at hlen
  | cons hd tl =>
    rw [hs] at hperm hsort
    have hdmem : hd ∈ log ++ [e] := hperm.subset (List.mem_cons_self _ _)
    have hde : hd = e := by
      rcases List.mem_append.mp hdmem with hl | hr
      · exfalso
        have he_mem : e ∈ hd :: tl :=
          hperm.mem_iff.mpr (List.mem_append.mpr (Or.inr (List.mem_singleton.mpr rfl)))
        rcases List.mem_cons.mp he_mem with heq | htl
        · rw [heq] at h
          exact Nat.lt_irrefl _ (h hd hl)
        · have hge := List.rel_of_sorted_cons hsort e htl
          exact absurd (h hd hl) (not_lt.mpr hge)
      · exact List.mem_singleton.mp hr
    rw [hde]
    rfl

/-- C9: in live mode, a successful `ban_ip` followed immediately by a
limit-1 query of the action log returns exactly the entry recording
that action — the newest row, with action kind `ban` and the matching
jail and address. -/
theorem c9_ban_then_recent (exec : Exec) (ts jail ip : String)
    (log : List LogEntry)
    (h : (run_f2b_command (exec ["set", jail, "banip", ip])).2 = 0) :
    get_ban_log 1 (ban_ip false exec ts jail ip log).log =
      .ok [⟨nextId log, ts, jail, ip, "ban"⟩] := by
  have hlog : (ban_ip false exec ts jail ip log).log =
      log ++ [⟨nextId log, ts, jail, ip, "ban"⟩] := by
    simp [ban_ip, h]
  rw [hlog]
  exact get_ban_log_one_append log _ (fun x hx => id_lt_nextId log x hx)

/-- C9, witness at a concrete successful transport and concrete log. -/
theorem c9_ban_then_recent_witness :
    get_ban_log 1
        (ban_ip false execOk "2026-01-02T00:00:00+00:00" "sshd" "1.2.3.4"
          sampleLog).log =
      .ok [⟨nextId sampleLog, "2026-01-02T00:00:00+00:00", "sshd", "1.2.3.4",
        "ban"⟩] :=
  c9_ban_then_recent execOk "2026-01-02T00:00:00+00:00" "sshd" "1.2.3.4"
    sampleLog rfl

/-- One parse step cannot raise on a `lineOk` line, and it changes only
the field of the label it matches. -/
theorem parseLine_spec (r : JailStatus) (line : List Char)
    (h : lineOk line = true) :
    ∃ r', parseLine r line = some r' ∧
      (occursIn cfLabel (trimChars line) = false →
        r'.currently_failed = r.currently_failed) ∧
      (occursIn tfLabel (trimChars line) = false →
        r'.total_failed = r.total_failed) ∧
      (occursIn cbLabel (trimChars line) = false →
        r'.currently_banned = r.currently_banned) ∧
      (occursIn tbLabel (trimChars line) = false →
        r'.total_banned = r.total_banned) ∧
      (occursIn ipLabel (trimChars line) = false →
        r'.banned_ips = r.banned_ips) ∧
      r'.name = r.name := by
  unfold lineOk at h
  unfold parseLine
  by_cases h1 : occursIn cfLabel (trimChars line) = true
  · rw [if_pos h1] at h ⊢
    obtain ⟨n, hn⟩ := Option.isSome_iff_exists.mp h
    rw [hn]
    exact ⟨{ r with currently_failed := n }, rfl,
      fun hc => absurd h1 (by simp [hc]), fun _ => rfl, fun _ => rfl,
      fun _ => rfl, fun _ => rfl, rfl⟩
  · rw [if_neg h1] at h ⊢
    by_cases h2 : occursIn tfLabel (trimChars line) = true
    · rw [if_pos h2] at h ⊢
      obtain ⟨n, hn⟩ := Option.isSome_iff_exists.mp h
      rw [hn]
      exact ⟨{ r with total_failed := n }, rfl, fun _ => rfl,
        fun hc => absurd h2 (by simp [hc]), fun _ => rfl, fun _ => rfl,
        fun _ => rfl, rfl⟩
    · rw [if_neg h2] at h ⊢
      by_cases h3 : occursIn cbLabel (trimChars line) = true
      · rw [if_pos h3] at h ⊢
        obtain ⟨n, hn⟩ := Option.isSome_iff_exists.mp h
        rw [hn]
        exact ⟨{ r with currently_banned := n }, rfl, fun _ => rfl,
          fun _ => rfl, fun hc => absurd h3 (by simp [hc]), fun _ => rfl,
          fun _ => rfl, rfl⟩
      · rw [if_neg h3] at h ⊢
        by_cases h4 : occursIn tbLabel (trimChars line) = true
        · rw [if_pos h4] at h ⊢
          obtain ⟨n, hn⟩ := Option.isSome_iff_exists.mp h
          rw [hn]
          exact ⟨{ r with total_banned := n }, rfl, fun _ => rfl,
            fun _ => rfl, fun _ => rfl, fun hc => absurd h4 (by simp [hc]),
            fun _ => rfl, rfl⟩
        · rw [if_neg h4]
          by_cases h5 : occursIn ipLabel (trimChars line) = true
          · rw [if_pos h5]
            by_cases h6 : trimChars (lastColonSeg (trimChars line)) ≠ []
            · rw [if_pos h6]
              exact ⟨_, rfl, fun _ => rfl, fun _ => rfl, fun _ => rfl,
                fun _ => rfl, fun hc => absurd h5 (by simp [hc]), rfl⟩
            · rw [if_neg h6]
              exact ⟨r, rfl, fun _ => rfl, fun _ => rfl, fun _ => rfl,
                fun _ => rfl, fun _ => rfl, rfl⟩
          · rw [if_neg h5]
            exact ⟨r, rfl, fun _ => rfl, fun _ => rfl, fun _ => rfl,
              fun _ => rfl, fun _ => rfl, rfl⟩

/-- The line loop never raises when every line is `lineOk`, and any
field whose label occurs on no line keeps its incoming value. -/
theorem foldParse_spec (lines : List (List Char)) :
    ∀ r : JailStatus, (∀ l ∈ lines, lineOk l = true) →
    ∃ r', foldParse r lines = some r' ∧
      ((∀ l ∈ lines, occursIn cfLabel (trimChars l) = false) →
        r'.currently_failed = r.currently_failed) ∧
      ((∀ l ∈ lines, occursIn tfLabel (trimChars l) = false) →
        r'.total_failed = r.total_failed) ∧
      ((∀ l ∈ lines, occursIn cbLabel (trimChars l) = false) →
        r'.currently_banned = r.currently_banned) ∧
      ((∀ l ∈ lines, occursIn tbLabel (trimChars l) = false) →
        r'.total_banned = r.total_banned) ∧
      ((∀ l ∈ lines, occursIn ipLabel (trimChars l) = false) →
        r'.banned_ips = r.banned_ips) ∧
      r'.name = r.name := by
  induction lines with
  | nil =>
    intro r _
    exact ⟨r, rfl, fun _ => rfl, fun _ => rfl, fun _ => rfl, fun _ => rfl,
      fun _ => rfl, rfl⟩
  | cons l ls ih =>
    intro r hok
    obtain ⟨r₁, he₁, p1, p2, p3, p4, p5, pn⟩ :=
      parseLine_spec r l (hok l (List.mem_cons_self _ _))
    obtain ⟨r₂, he₂, q1, q2, q3, q4, q5, qn⟩ :=
      ih r₁ (fun x hx => hok x (List.mem_cons_of_mem _ hx))
    refine ⟨r₂, ?_, ?_, ?_, ?_, ?_, ?_, qn.trans pn⟩
    · show foldParse r (l :: ls) = some r₂
      simp only [foldParse]
      rw [he₁]
      exact he₂
    · intro hall
      exact (q1 (fun x hx => hall x (List.mem_cons_of_mem _ hx))).trans
        (p1 (hall l (List.mem_cons_self _ _)))
    · intro hall
      exact (q2 (fun x hx => hall x (List.mem_cons_of_mem _ hx))).trans
        (p2 (hall l (List.mem_cons_self _ _)))
    · intro hall
      exact (q3 (fun x hx => hall x (List.mem_cons_of_mem _ hx))).trans
        (p3 (hall l (List.mem_cons_self _ _)))
    · intro hall
      exact (q4 (fun x hx => hall x (List.mem_cons_of_mem _ hx))).trans
        (p4 (hall l (List.mem_cons_self _ _)))
    · intro hall
      exact (q5 (fun x hx => hall x (List.mem_cons_of_mem _ hx))).trans
        (p5 (hall l (List.mem_cons_self _ _)))

/-- C1 (amended): with status code 0, `parse_jail_status` returns a
record — and any count whose label appears on no line stays 0, the
banned-address list stays empty when its label appears on no line, and
unrecognized lines are ignored — provided every line that matches a
numeric label carries a digit after its final colon.  (Without that
proviso the parse raises instead of defaulting; see the
counterexample.) -/
theorem c1_parse_tolerance (jail output : String)
    (h : ∀ l ∈ splitChar '\n' (pyStrip output).data, lineOk l = true) :
    ∃ r, parse_jail_status (fun _ => ExecOutcome.completed output 0) jail =
        some (.ok r) ∧
      ((∀ l ∈ splitChar '\n' (pyStrip output).data,
          occursIn cfLabel (trimChars l) = false) →
        r.currently_failed = 0) ∧
      ((∀ l ∈ splitChar '\n' (pyStrip output).data,
          occursIn tfLabel (trimChars l) = false) →
        r.total_failed = 0) ∧
      ((∀ l ∈ splitChar '\n' (pyStrip output).data,
          occursIn cbLabel (trimChars l) = false) →
        r.currently_banned = 0) ∧
      ((∀ l ∈ splitChar '\n' (pyStrip output).data,
          occursIn tbLabel (trimChars l) = false) →
        r.total_banned = 0) ∧
      ((∀ l ∈ splitChar '\n' (pyStrip output).data,
          occursIn ipLabel (trimChars l) = false) →
        r.banned_ips = []) ∧
      r.name = jail := by
  obtain ⟨r, he, p1, p2, p3, p4, p5, pn⟩ :=
    foldParse_spec (splitChar '\n' (pyStrip output).data) (initStatus jail) h
  refine ⟨r, ?_, p1, p2, p3, p4, p5, pn⟩
  have hred : parse_jail_status (fun _ => ExecOutcome.completed output 0) jail =
      match foldParse (initStatus jail)
          (splitChar '\n' (pyStrip output).data) with
      | none => none
      | some r => some (.ok r) := rfl
  rw [hred, he]

/-- C1, witness for the amended theorem: a text with one recognizable
count line and one unrecognizable line parses to a record. -/
theorem c1_parse_tolerance_witness :
    ∃ r, parse_jail_status (fun _ => ExecOutcome.completed partialText 0)
        "sshd" = some (.ok r) ∧
      ((∀ l ∈ splitChar '\n' (pyStrip partialText).data,
          occursIn cfLabel (trimChars l) = false) →
        r.currently_failed = 0) ∧
      ((∀ l ∈ splitChar '\n' (pyStrip partialText).data,
          occursIn tfLabel (trimChars l) = false) →
        r.total_failed = 0) ∧
      ((∀ l ∈ splitChar '\n' (pyStrip partialText).data,
          occursIn cbLabel (trimChars l) = false) →
        r.currently_banned = 0) ∧
      ((∀ l ∈ splitChar '\n' (pyStrip partialText).data,
          occursIn tbLabel (trimChars l) = false) →
        r.total_banned = 0) ∧
      ((∀ l ∈ splitChar '\n' (pyStrip partialText).data,
          occursIn ipLabel (trimChars l) = false) →
        r.banned_ips = []) ∧
      r.name = "sshd" :=
  c1_parse_tolerance "sshd" partialText (by decide)

end Fail2banWeb
